import Mathlib

/-
Verification of the image-merger workflow (fixed_merger_bot.py, the most
complete bot variant in the repository).

The development shallowly embeds the stateful Python code:

* the image-compositor geometry of `process_name` (reference-image anchor
  computation and clamping, label anchor computation and clamping) becomes
  pure integer functions, with Python's floor division `//` modelled by
  `Int.fdiv`;
* the per-user session dictionary `user_data[user_id]` becomes the structure
  `UserSession`, where a dictionary key that may be absent is an `Option`
  field (or a `Bool` field defaulting to `false`, matching `.get` on an
  absent key being falsy);
* the preset file `spacing_presets.json` becomes an association list in
  insertion order (Python dictionaries preserve insertion order and have
  unique keys), and `load_presets` / `save_presets` become pure functions
  from the stored document to the loaded document plus a count of
  write-backs;
* conversation-handler return values (the `range(12)` state constants and
  `ConversationHandler.END`) become the inductive type `ConvState`.
-/

/-! ## Compositor geometry (process_name, lines 957-1046) -/

/-- Python's floor division on integers, `a // b`. -/
def pydiv (a b : Int) : Int := Int.fdiv a b

/-- Config constant `REF_IMAGE_SIZE = 400` (side of the resized reference image). -/
def REF_IMAGE_SIZE : Int := 400

/-- Reference-image X anchor, lines 967-975:
`x_position = main_width // 2 - REF_IMAGE_SIZE // 2 + spacing['image_x']`
then `x_position = max(0, min(x_position, main_width - REF_IMAGE_SIZE))`. -/
def x_position (main_width : Nat) (image_x : Int) : Int :=
  let ref_center_x : Int := pydiv (main_width : Int) 2
  let raw := ref_center_x - pydiv REF_IMAGE_SIZE 2 + image_x
  max 0 (min raw ((main_width : Int) - REF_IMAGE_SIZE))

/-- Reference-image Y anchor, lines 968-976 (symmetric to `x_position`). -/
def y_position (main_height : Nat) (image_y : Int) : Int :=
  let ref_center_y : Int := pydiv (main_height : Int) 2
  let raw := ref_center_y - pydiv REF_IMAGE_SIZE 2 + image_y
  max 0 (min raw ((main_height : Int) - REF_IMAGE_SIZE))

/-- Label X anchor, lines 1041 and 1045. `text_width` is the measured width
`font.getbbox(name)[2] - font.getbbox(name)[0]`. -/
def text_x_pos (main_width text_width : Nat) (text_x : Int) : Int :=
  let raw := pydiv ((main_width : Int) - (text_width : Int)) 2 + text_x
  max 10 (min raw ((main_width : Int) - (text_width : Int) - 10))

/-- Label Y anchor, lines 1042 and 1046. `text_height` is the measured height. -/
def text_y_pos (main_height text_height : Nat) (text_y : Int) : Int :=
  let raw := (main_height : Int) - (text_height : Int) - 30 + text_y
  max 10 (min raw ((main_height : Int) - (text_height : Int) - 10))

/-- Modelled from the spec: the `clamp(v, lo, hi)` function of spec section 8,
lower bound taking precedence when the interval is empty. -/
def clamp (v lo hi : Int) : Int := max lo (min v hi)

/-! ## Reply-keyboard button texts (lines 50-64) -/

def CREATE_IMAGE_TEXT : String := "🖼️ Create New Image"

def CANCEL_TEXT : String := "❌ Cancel"

def BACK_TEXT : String := "⬅️ Back"

/-! ## Integer parsing (Python `int(text.strip())`, line 409) -/

/-- The code points Python's `str.strip()` removes: every character for which
`str.isspace()` holds (checked against the CPython 3.11 the program runs on). -/
def pyWhitespace : List Nat :=
  [0x9, 0xa, 0xb, 0xc, 0xd, 0x1c, 0x1d, 0x1e, 0x1f, 0x20, 0x85, 0xa0,
   0x1680, 0x2000, 0x2001, 0x2002, 0x2003, 0x2004, 0x2005, 0x2006, 0x2007,
   0x2008, 0x2009, 0x200a, 0x2028, 0x2029, 0x202f, 0x205f, 0x3000]

/-- Whether `str.strip()` strips the character. -/
def isPySpace (c : Char) : Bool := pyWhitespace.contains c.toNat

/-- Strip leading and trailing Python whitespace from a character list. -/
def stripChars (l : List Char) : List Char :=
  ((l.dropWhile isPySpace).reverse.dropWhile isPySpace).reverse

/-- Start code points of the 66 runs of ten consecutive Unicode decimal-digit
characters (category Nd, as in the Unicode tables of the CPython 3.11 the
program runs on); the character at `start + d` is the digit of value `d`.
Python's `int()` accepts any of these wherever a digit is expected. -/
def ndRunStarts : List Nat :=
  [0x30, 0x660, 0x6f0, 0x7c0, 0x966, 0x9e6, 0xa66, 0xae6, 0xb66, 0xbe6,
   0xc66, 0xce6, 0xd66, 0xde6, 0xe50, 0xed0, 0xf20, 0x1040, 0x1090, 0x17e0,
   0x1810, 0x1946, 0x19d0, 0x1a80, 0x1a90, 0x1b50, 0x1bb0, 0x1c40, 0x1c50,
   0xa620, 0xa8d0, 0xa900, 0xa9d0, 0xa9f0, 0xaa50, 0xabf0, 0xff10, 0x104a0,
   0x10d30, 0x11066, 0x110f0, 0x11136, 0x111d0, 0x112f0, 0x11450, 0x114d0,
   0x11650, 0x116c0, 0x11730, 0x118e0, 0x11950, 0x11c50, 0x11d50, 0x11da0,
   0x16a60, 0x16ac0, 0x16b50, 0x1d7ce, 0x1d7d8, 0x1d7e2, 0x1d7ec, 0x1d7f6,
   0x1e140, 0x1e2f0, 0x1e950, 0x1fbf0]

/-- Decimal value of a Unicode decimal digit (category Nd), if `c` is one. -/
def digitVal (c : Char) : Option Nat :=
  match ndRunStarts.find? (fun s => decide (s ≤ c.toNat ∧ c.toNat ≤ s + 9)) with
  | some s => some (c.toNat - s)
  | none => none

/-- Continue a numeral after its first digit: further digits, with single
underscores allowed only between two digits (`int("1_0")` is 10, while
`int("1_")`, `int("1__2")` raise `ValueError`). -/
def parseNumeralAux (acc : Nat) : List Char → Option Nat
  | [] => some acc
  | ['_'] => none
  | '_' :: c :: rest =>
    match digitVal c with
    | some d => parseNumeralAux (acc * 10 + d) rest
    | none => none
  | c :: rest =>
    match digitVal c with
    | some d => parseNumeralAux (acc * 10 + d) rest
    | none => none

/-- Parse a numeral: it must start with a decimal digit (never an
underscore) and be nonempty. -/
def parseNumeral : List Char → Option Nat
  | [] => none
  | c :: rest =>
    match digitVal c with
    | some d => parseNumeralAux d rest
    | none => none

/-- Model of Python's `int(text.strip())` (line 409): strip Unicode
whitespace, then an optional single ASCII sign (`int()` rejects any other
sign character) followed by a nonempty underscore-grouped run of Unicode
decimal digits; anything else raises `ValueError`, modelled as `none`. -/
def parseInt (text : String) : Option Int :=
  match stripChars text.data with
  | '-' :: rest => (parseNumeral rest).map (fun n => -(n : Int))
  | '+' :: rest => (parseNumeral rest).map (fun n => (n : Int))
  | l => (parseNumeral l).map (fun n => (n : Int))

/-! ## Session data model (the `user_data[user_id]` dictionary) -/

/-- One of the four spacing-offset dictionary keys of `SPACING_KEYS` (line 47). -/
inductive SpacingKey
  | image_x
  | image_y
  | text_x
  | text_y
deriving DecidableEq, Repr

/-- The four-key spacing record (`DEFAULT_SPACING` shape, lines 33-38). -/
structure SpacingOffsets where
  image_x : Int
  image_y : Int
  text_x : Int
  text_y : Int
deriving DecidableEq, Repr

/-- `DEFAULT_SPACING = {image_x: 0, image_y: 0, text_x: 0, text_y: 0}`. -/
def DEFAULT_SPACING : SpacingOffsets := ⟨0, 0, 0, 0⟩

/-- Write one field of a spacing record (`spacing[current_key] = value`, line 412). -/
def SpacingOffsets.set (s : SpacingOffsets) : SpacingKey → Int → SpacingOffsets
  | .image_x, v => { s with image_x := v }
  | .image_y, v => { s with image_y := v }
  | .text_x, v => { s with text_x := v }
  | .text_y, v => { s with text_y := v }

/-- A delivered media item, at the granularity the claims need: its pixel
dimensions and whether `Image.open` succeeds on its downloaded bytes. -/
structure Media where
  width : Nat
  height : Nat
  decodesOk : Bool
deriving DecidableEq, Repr

/-- The per-user entry of the global `user_data` dictionary. A key that may be
absent from the Python dictionary is an `Option` field; the `first_is_document`
and `second_is_document` flags are read with `.get`, whose result on an absent
key is falsy, so they are `Bool` fields defaulting to `false`; `spacing` is
initialized to `DEFAULT_SPACING.copy()` by every handler before use, so it is
a plain field defaulting to `DEFAULT_SPACING`. -/
structure UserSession where
  spacing : SpacingOffsets := DEFAULT_SPACING
  current_spacing_key : Option SpacingKey := none
  last_preset : Option String := none
  editing_preset : Option String := none
  first_photo : Option Media := none
  first_is_document : Bool := false
  first_mime_type : Option String := none
  second_photo : Option Media := none
  second_is_document : Bool := false
  second_mime_type : Option String := none
deriving DecidableEq, Repr

/-- Conversation-handler return values: the state constants of line 18 plus
`ConversationHandler.END` (the idle state). -/
inductive ConvState
  | conversation_end
  | first_image_state
  | second_image_state
  | name_state
  | settings_state
  | custom_spacing_state
  | spacing_input_state
  | presets_state
  | save_preset_state
  | load_preset_state
  | preset_name_state
  | delete_preset_state
  | edit_preset_state
deriving DecidableEq, Repr

/-! ## handle_spacing_input (lines 391-428) -/

/-- The `handle_spacing_input` handler: on `BACK_TEXT` return to the spacing
menu (`custom_spacing_menu` returns `CUSTOM_SPACING`); otherwise read the
pending key with `.get('current_spacing_key', 'image_x')`, parse the text as
an integer, on success write it into `spacing[key]` and return to the spacing
menu, and on `ValueError` re-prompt and stay in `SPACING_INPUT`. -/
def handle_spacing_input (s : UserSession) (text : String) : UserSession × ConvState :=
  if text == BACK_TEXT then
    (s, ConvState.custom_spacing_state)
  else
    let key := s.current_spacing_key.getD SpacingKey.image_x
    match parseInt text with
    | some v => ({ s with spacing := s.spacing.set key v }, ConvState.custom_spacing_state)
    | none => (s, ConvState.spacing_input_state)

/-! ## Transparency, composition and job completion (process_name, lines 907-1139) -/

/-- Lines 940-945: `has_transparency` starts `False` and is set `True` by
either of two `if` statements checking that a source arrived as a document
with MIME type `image/png`. -/
def has_transparency (s : UserSession) : Bool :=
  let h0 := false
  let h1 :=
    if s.first_is_document && s.first_mime_type == some "image/png" then true else h0
  if s.second_is_document && s.second_mime_type == some "image/png" then true else h1

/-- PIL conversion mode chosen at lines 948-955. -/
inductive ImgMode
  | RGBA
  | RGB
deriving DecidableEq, Repr

/-- Output encoding chosen at lines 1057-1066. -/
inductive OutFormat
  | PNG
  | JPEG
deriving DecidableEq, Repr

/-- The composed result, at the granularity the claims need: decode mode,
output format, JPEG quality when applicable, filename hint, and the clamped
anchors of the reference image and of the label. -/
structure CompositionResult where
  mode : ImgMode
  format : OutFormat
  jpeg_quality : Option Nat
  filename : String
  ref_x : Int
  ref_y : Int
  label_x : Int
  label_y : Int
deriving DecidableEq, Repr

/-- The successful body of `process_name` (lines 940-1079): mode and format
selection driven by `has_transparency`, reference anchor from `x_position` /
`y_position` on the main image's dimensions, label anchor from `text_x_pos` /
`text_y_pos`. `tw` and `th` are the measured label extents from
`font.getbbox(name)` (lines 1037-1038), inputs to the model since font
metrics are outside the embedding. -/
def compose (s : UserSession) (m : Media) (tw th : Nat) : CompositionResult :=
  let ht := has_transparency s
  { mode := if ht then ImgMode.RGBA else ImgMode.RGB
    format := if ht then OutFormat.PNG else OutFormat.JPEG
    jpeg_quality := if ht then none else some 95
    filename := if ht then "merged_image.png" else "merged_image.jpg"
    ref_x := x_position m.width s.spacing.image_x
    ref_y := y_position m.height s.spacing.image_y
    label_x := text_x_pos m.width tw s.spacing.text_x
    label_y := text_y_pos m.height th s.spacing.text_y }

/-- Lines 1103-1108: on success, `user_data[user.id]` is replaced by a fresh
dictionary holding only the `spacing` entry (when present). -/
def reset_keep_settings (s : UserSession) : UserSession :=
  { spacing := s.spacing }

/-- The `cancel` handler (lines 1141-1163): same reset, written out a second
time in the source, then `ConversationHandler.END`. -/
def cancel_session (s : UserSession) : UserSession × ConvState :=
  ({ spacing := s.spacing }, ConvState.conversation_end)

/-- Outcome of `process_name`: the session left in `user_data`, the returned
conversation state, the delivered composition (if any), and whether the
error reply of the `except` block (line 1126) was sent. -/
structure ProcOutcome where
  session : UserSession
  state : ConvState
  output : Option CompositionResult
  error_reply : Bool
deriving DecidableEq, Repr

/-- The `process_name` handler (lines 907-1139). The text `CANCEL_TEXT`
routes to `cancel` (line 912). Otherwise the `try` block downloads and
decodes both stored media; any failure there (including a missing session
entry, a `KeyError`) is caught by the `except` block, which replies with an
error, leaves the session untouched and returns `END`. On success the
composition is delivered and the session is reset to its settings. -/
def process_name (s : UserSession) (text : String) (tw th : Nat) : ProcOutcome :=
  if text == CANCEL_TEXT then
    { session := (cancel_session s).1
      state := (cancel_session s).2
      output := none
      error_reply := false }
  else
    match s.first_photo, s.second_photo with
    | some m1, some m2 =>
      if m1.decodesOk && m2.decodesOk then
        { session := reset_keep_settings s
          state := ConvState.conversation_end
          output := some (compose s m1 tw th)
          error_reply := false }
      else
        { session := s
          state := ConvState.conversation_end
          output := none
          error_reply := true }
    | _, _ =>
      { session := s
        state := ConvState.conversation_end
        output := none
        error_reply := true }

/-! ## Preset repository (lines 66-110, 430-488, 645-706) -/

/-- Lookup in a Python-dict-like association list (`d[k]`, `d.get(k)`):
first binding of the key (keys are unique in a Python dict). -/
def alookup {α : Type} : List (String × α) → String → Option α
  | [], _ => none
  | (k', v) :: t, k => if k' == k then some v else alookup t k

/-- Python's `k in d`. -/
def ahas {α : Type} (d : List (String × α)) (k : String) : Bool :=
  (alookup d k).isSome

/-- Python's `d[k] = v`: update in place when the key exists, append otherwise. -/
def aset {α : Type} : List (String × α) → String → α → List (String × α)
  | [], k, v => [(k, v)]
  | (k', v') :: t, k, v => if k' == k then (k, v) :: t else (k', v') :: aset t k v

/-- One value of the preset document: `{"spacing": {...}}`. The `"spacing"`
key itself may be absent; the code guards every access with
`"spacing" in preset_data`. -/
structure PresetData where
  spacing : Option (List (String × Int))
deriving DecidableEq, Repr

/-- The stored preset document (`spacing_presets.json`): preset name to
record, in insertion order. -/
abbrev PresetsDoc := List (String × PresetData)

/-- The replacement spacing written by the migration (lines 80-85). -/
def default_spacing_dict : List (String × Int) :=
  [("image_x", 0), ("image_y", 0), ("text_x", 0), ("text_y", 0)]

/-- The migration test of line 78:
`"top" in spacing and "image_x" not in spacing` (on records that have a
`"spacing"` key at all, line 75). -/
def record_is_old_format (p : PresetData) : Bool :=
  match p.spacing with
  | some sp => ahas sp "top" && !(ahas sp "image_x")
  | none => false

/-- Lines 74-86: migration of a single record. -/
def migrate_record (p : PresetData) : PresetData :=
  if record_is_old_format p then { spacing := some default_spacing_dict } else p

/-- `load_presets` (lines 66-100) on an existing preset file: migrate every
record and, when any record changed, re-persist the whole document once
(`json.dump`, line 92). Returns the loaded document — which is then also the
document on disk — together with the number of write-backs performed. -/
def load_presets (disk : PresetsDoc) : PresetsDoc × Nat :=
  let migrated := disk.any (fun p => record_is_old_format p.2)
  let doc := disk.map (fun p => (p.1, migrate_record p.2))
  (doc, if migrated then 1 else 0)

/-- The session spacing as the dictionary stored by `save_preset`
(line 672: `presets[preset_name] = {"spacing": spacing}`). -/
def spacing_to_dict (sp : SpacingOffsets) : List (String × Int) :=
  [("image_x", sp.image_x), ("image_y", sp.image_y),
   ("text_x", sp.text_x), ("text_y", sp.text_y)]

/-- `save_preset` (lines 645-706), reduced to its repository effect: reject an
empty stripped name (line 655), otherwise load the current document
(migration included, line 669), upsert the name with the session's spacing
(line 672) and persist (line 677). Returns the new document on disk. -/
def save_preset (disk : PresetsDoc) (name : String) (sp : SpacingOffsets) : Option PresetsDoc :=
  if name = "" then none
  else some (aset (load_presets disk).1 name { spacing := some (spacing_to_dict sp) })

/-- One step of the consumer back-fill (e.g. lines 446-447):
`if "image_x" not in spacing: spacing["image_x"] = 0`. -/
def ensure_key (sp : List (String × Int)) (k : String) : List (String × Int) :=
  if ahas sp k then sp else sp ++ [(k, 0)]

/-- The four-key back-fill applied to every loaded record by each of its
consumers (presets_menu lines 445-453, edit_preset 572-580, load_preset
1305-1313, start_new_image 736-744). -/
def backfill_spacing (sp : List (String × Int)) : List (String × Int) :=
  ensure_key (ensure_key (ensure_key (ensure_key sp "image_x") "image_y") "text_x") "text_y"

/-- Back-fill of one record's spacing, when present. -/
def backfill_record (p : PresetData) : PresetData :=
  { spacing := p.spacing.map backfill_spacing }

/-- The spec's `loadAll()` as the code realizes it: the repository read
(`load_presets`, migration included) composed with the back-fill its
consumers apply to every record. -/
def load_all (disk : PresetsDoc) : PresetsDoc :=
  (load_presets disk).1.map (fun p => (p.1, backfill_record p.2))

/-- A legacy-schema record as described in the claims: the old directional
keys are all present and the current four-key schema is entirely absent. -/
def record_is_legacy (p : PresetData) : Bool :=
  match p.spacing with
  | some sp =>
    (ahas sp "top" && ahas sp "right" && ahas sp "bottom" && ahas sp "left")
      && !(ahas sp "image_x" || ahas sp "image_y" || ahas sp "text_x" || ahas sp "text_y")
  | none => false

/-! ## Helper lemmas for floor division -/

theorem pydiv_two_eq (a : Int) : pydiv a 2 = a / 2 :=
  Int.fdiv_eq_ediv _ (by norm_num)

/-! ## Claim theorems for the compositor geometry -/

/-- C1: for every composition request with main dimensions `(main_w, main_h)`,
spacing offsets `(image_x, image_y)` and the reference resized to side 400,
the paste anchor equals `clamp((main_w - ref_side)/2 + image_x, 0, main_w - ref_side)`
on X (floor division) and the symmetric expression on Y, each axis clamped
independently; when the reference side exceeds the main dimension on an axis
the clamped anchor on that axis is 0. -/
theorem C1_ref_anchor_formula (main_w main_h : Nat) (image_x image_y : Int) :
    x_position main_w image_x
        = clamp (pydiv ((main_w : Int) - REF_IMAGE_SIZE) 2 + image_x) 0
            ((main_w : Int) - REF_IMAGE_SIZE)
      ∧ y_position main_h image_y
        = clamp (pydiv ((main_h : Int) - REF_IMAGE_SIZE) 2 + image_y) 0
            ((main_h : Int) - REF_IMAGE_SIZE)
      ∧ ((main_w : Int) < REF_IMAGE_SIZE → x_position main_w image_x = 0)
      ∧ ((main_h : Int) < REF_IMAGE_SIZE → y_position main_h image_y = 0) := by
  simp only [x_position, y_position, clamp, REF_IMAGE_SIZE, pydiv_two_eq]
  omega

/-- C1 witness: at `main_w = 300 < 400` the clamped X anchor is 0. -/
theorem C1_ref_anchor_formula_witness :
    (300 : Int) < REF_IMAGE_SIZE ∧ x_position 300 7 = 0 :=
  ⟨by decide, (C1_ref_anchor_formula 300 300 7 7).2.2.1 (by decide)⟩

/-- C2 counterexample: with `main_width = 100` and a measured label width of
200 (wider than `main_width - 20`), the label X anchor is 10, which does not
lie in the claimed interval `[10, main_width - text_width - 10] = [10, -110]`. -/
theorem C2_counterexample :
    ¬ (10 ≤ text_x_pos 100 200 0 ∧ text_x_pos 100 200 0 ≤ (100 : Int) - 200 - 10) := by
  decide

/-- C2 (amended): reference placement coordinates always lie in
`[0, max 0 (main_dimension - 400)]` and label coordinates in
`[10, max 10 (main_dimension - text_extent - 10)]`, i.e. inside the spec's
interval whenever that interval is nonempty and collapsed to the lower bound
(0 for the reference, 10 for the label) when it is empty; in particular a
label wider than `main_width - 20` anchors at exactly `X = 10`. -/
theorem C2_placement_invariant (main_w main_h tw th : Nat) (ix iy tx ty : Int) :
    (0 ≤ x_position main_w ix
        ∧ x_position main_w ix ≤ max 0 ((main_w : Int) - REF_IMAGE_SIZE))
      ∧ (0 ≤ y_position main_h iy
        ∧ y_position main_h iy ≤ max 0 ((main_h : Int) - REF_IMAGE_SIZE))
      ∧ (10 ≤ text_x_pos main_w tw tx
        ∧ text_x_pos main_w tw tx ≤ max 10 ((main_w : Int) - (tw : Int) - 10))
      ∧ (10 ≤ text_y_pos main_h th ty
        ∧ text_y_pos main_h th ty ≤ max 10 ((main_h : Int) - (th : Int) - 10))
      ∧ ((main_w : Int) - 20 < (tw : Int) → text_x_pos main_w tw tx = 10) := by
  simp only [x_position, y_position, text_x_pos, text_y_pos, REF_IMAGE_SIZE, pydiv_two_eq]
  omega

/-- C2 witness (for the amended claim's conditional conjunct): a label of
width 200 on a 100-wide main image anchors at `X = 10`. -/
theorem C2_placement_invariant_witness :
    (100 : Int) - 20 < (200 : Int) ∧ text_x_pos 100 200 0 = 10 :=
  ⟨by decide, (C2_placement_invariant 100 100 200 200 0 0 0 0).2.2.2.2 (by decide)⟩

/-! ## Helper lemmas for the spacing-input handler -/

/-- Fidelity of `parseInt` to CPython's `int(text.strip())` on accepted
inputs: underscore-grouped numerals, non-ASCII Unicode decimal digits
(Arabic-Indic, fullwidth, also mixed with ASCII around an underscore), and
non-ASCII whitespace (NEL, NBSP, ideographic space) — each evaluating to the
value CPython returns. -/
theorem parseInt_accepts_python_inputs :
    parseInt "1_0" = some 10
      ∧ parseInt "٤٢" = some 42
      ∧ parseInt "１２３" = some 123
      ∧ parseInt "٤_2" = some 42
      ∧ parseInt "\x8542" = some 42
      ∧ parseInt "  -42 　" = some (-42)
      ∧ parseInt "0_0_7" = some 7
      ∧ parseInt "+42" = some 42 := by
  decide

/-- Fidelity of `parseInt` to CPython's `int(text.strip())` on rejected
inputs: misplaced underscores, a bare or non-ASCII sign, interior
whitespace — each raising `ValueError` in CPython. -/
theorem parseInt_rejects_python_errors :
    parseInt "_1" = none
      ∧ parseInt "1_" = none
      ∧ parseInt "1__2" = none
      ∧ parseInt "-_1" = none
      ∧ parseInt "- 7" = none
      ∧ parseInt "＋42" = none
      ∧ parseInt "4 2" = none
      ∧ parseInt "" = none := by
  decide

/-- The Back button label does not parse as an integer. -/
theorem parseInt_BACK_TEXT : parseInt BACK_TEXT = none := by decide

/-- A text that parses as an integer cannot be the Back button label. -/
theorem parseInt_some_ne_back {text : String} {v : Int} (h : parseInt text = some v) :
    text ≠ BACK_TEXT := by
  intro he
  rw [he, parseInt_BACK_TEXT] at h
  exact Option.noConfusion h

/-! ## Claim theorems for the conversation handlers -/

/-- C8 counterexample: the Back button label does not parse as an integer,
yet on it the machine leaves the AwaitSpacingValue state (returning to the
spacing menu) rather than re-prompting in place, so the claim's "every input
text that does not parse as an integer" branch fails on that label. -/
theorem C8_counterexample :
    parseInt BACK_TEXT = none
      ∧ (handle_spacing_input { current_spacing_key := some SpacingKey.image_y } BACK_TEXT).2
        ≠ ConvState.spacing_input_state := by
  exact ⟨parseInt_BACK_TEXT, by decide⟩

/-- C8 (amended): in AwaitSpacingValue with pending key `k`, an input that
parses as integer `v` writes `v` into `spacing[k]` and returns to the spacing
menu; an input that does not parse and is not the Back label re-prompts with
neither the state nor any spacing field mutated; the Back label returns to
the spacing menu without mutation. -/
theorem C8_spacing_input_transitions (s : UserSession) (text : String) (k : SpacingKey)
    (hk : s.current_spacing_key = some k) :
    (∀ v : Int, parseInt text = some v →
        handle_spacing_input s text
          = ({ s with spacing := s.spacing.set k v }, ConvState.custom_spacing_state))
      ∧ (parseInt text = none → text ≠ BACK_TEXT →
        handle_spacing_input s text = (s, ConvState.spacing_input_state))
      ∧ (text = BACK_TEXT →
        handle_spacing_input s text = (s, ConvState.custom_spacing_state)) := by
  refine ⟨?_, ?_, ?_⟩
  · intro v hv
    have hne : text ≠ BACK_TEXT := parseInt_some_ne_back hv
    simp [handle_spacing_input, hne, hk, hv]
  · intro hv hne
    simp [handle_spacing_input, hne, hv]
  · intro he
    simp [handle_spacing_input, he]

/-- C8 witness: with pending key `text_y`, the input "-7" writes -7 into
`text_y` and the machine returns to the spacing menu. -/
theorem C8_spacing_input_transitions_witness :
    handle_spacing_input { current_spacing_key := some SpacingKey.text_y } "-7"
      = ({ current_spacing_key := some SpacingKey.text_y,
            spacing := { DEFAULT_SPACING with text_y := -7 } },
          ConvState.custom_spacing_state) := by
  have h := (C8_spacing_input_transitions
      { current_spacing_key := some SpacingKey.text_y } "-7" SpacingKey.text_y rfl).1
      (-7) (by decide)
  exact h

/-- C10: when AwaitSpacingValue is reached with no pending spacing key in the
session, an integer input is not rejected: `.get('current_spacing_key',
'image_x')` defaults the target to `image_x`, the value is written there and
the machine returns to the spacing menu. -/
theorem C10_default_key_image_x (s : UserSession) (text : String) (v : Int)
    (hk : s.current_spacing_key = none) (hv : parseInt text = some v) :
    handle_spacing_input s text
      = ({ s with spacing := { s.spacing with image_x := v } },
          ConvState.custom_spacing_state) := by
  have hne : text ≠ BACK_TEXT := parseInt_some_ne_back hv
  simp [handle_spacing_input, hne, hk, hv, SpacingOffsets.set]

/-- C10 witness: an empty session (no pending key) on input "42" gets
`image_x = 42`. -/
theorem C10_default_key_image_x_witness :
    handle_spacing_input {} "42"
      = ({ spacing := { DEFAULT_SPACING with image_x := 42 } },
          ConvState.custom_spacing_state) := by
  have h := C10_default_key_image_x {} "42" 42 rfl (by decide)
  exact h

/-- C3: preserveAlpha (`has_transparency`) is true iff at least one of the two
sources was delivered as a document with MIME type `image/png`; when true the
decode mode is RGBA and the output encodes as PNG; when false the decode mode
is RGB and the output encodes as JPEG at quality 95. -/
theorem C3_transparency_format (s : UserSession) (m : Media) (tw th : Nat) :
    (has_transparency s = true ↔
        ((s.first_is_document = true ∧ s.first_mime_type = some "image/png")
          ∨ (s.second_is_document = true ∧ s.second_mime_type = some "image/png")))
      ∧ (has_transparency s = true →
          (compose s m tw th).mode = ImgMode.RGBA
            ∧ (compose s m tw th).format = OutFormat.PNG
            ∧ (compose s m tw th).jpeg_quality = none)
      ∧ (has_transparency s = false →
          (compose s m tw th).mode = ImgMode.RGB
            ∧ (compose s m tw th).format = OutFormat.JPEG
            ∧ (compose s m tw th).jpeg_quality = some 95) := by
  refine ⟨?_, ?_, ?_⟩
  · unfold has_transparency
    cases h1 : (s.first_is_document && s.first_mime_type == some "image/png") <;>
      cases h2 : (s.second_is_document && s.second_mime_type == some "image/png") <;>
        simp_all [Bool.and_eq_true, beq_iff_eq]
  · intro h
    simp [compose, h]
  · intro h
    simp [compose, h]

/-- C3 witness: a reference delivered as an `image/png` document forces
transparency preservation and a PNG output. -/
theorem C3_transparency_format_witness :
    has_transparency { second_is_document := true, second_mime_type := some "image/png" } = true
      ∧ (compose { second_is_document := true, second_mime_type := some "image/png" }
          ⟨500, 500, true⟩ 40 20).format = OutFormat.PNG := by
  have h := (C3_transparency_format
      { second_is_document := true, second_mime_type := some "image/png" }
      ⟨500, 500, true⟩ 40 20).2.1 (by decide)
  exact ⟨by decide, h.2.1⟩

/-- C7 counterexample: a session carrying a last-used preset name loses it in
the post-job reset — the reset does not retain lastPresetName. -/
theorem C7_counterexample :
    (reset_keep_settings
        { spacing := ⟨1, 2, 3, 4⟩, last_preset := some "Demo",
          first_photo := some ⟨500, 500, true⟩ }).last_preset ≠ some "Demo" := by
  decide

/-- C7 (amended): on successful composition completion and on explicit
cancellation the session is reset to retain exactly the spacing field; every
other field — including lastPresetName — is cleared. -/
theorem C7_reset_retains_only_spacing (s : UserSession) :
    reset_keep_settings s
        = { spacing := s.spacing, current_spacing_key := none, last_preset := none,
            editing_preset := none, first_photo := none, first_is_document := false,
            first_mime_type := none, second_photo := none, second_is_document := false,
            second_mime_type := none }
      ∧ cancel_session s = (reset_keep_settings s, ConvState.conversation_end)
      ∧ (∀ text tw th, (process_name s text tw th).output.isSome →
          (process_name s text tw th).session = reset_keep_settings s) := by
  refine ⟨rfl, rfl, ?_⟩
  intro text tw th hout
  by_cases hc : (text == CANCEL_TEXT) = true
  · simp [process_name, hc] at hout
  · cases h1 : s.first_photo with
    | none => simp [process_name, hc, h1] at hout
    | some m1 =>
      cases h2 : s.second_photo with
      | none => simp [process_name, hc, h1, h2] at hout
      | some m2 =>
        by_cases hd : (m1.decodesOk && m2.decodesOk) = true
        · simp [process_name, hc, h1, h2, hd]
        · simp [process_name, hc, h1, h2, hd] at hout

/-- C7 witness: a concrete successful job resets the session to its spacing
alone. -/
theorem C7_reset_retains_only_spacing_witness :
    (process_name
        { spacing := ⟨5, 6, 7, 8⟩, last_preset := some "Demo",
          first_photo := some ⟨500, 500, true⟩, second_photo := some ⟨100, 100, true⟩ }
        "label" 40 20).output.isSome = true
      ∧ (process_name
        { spacing := ⟨5, 6, 7, 8⟩, last_preset := some "Demo",
          first_photo := some ⟨500, 500, true⟩, second_photo := some ⟨100, 100, true⟩ }
        "label" 40 20).session
        = reset_keep_settings
          { spacing := ⟨5, 6, 7, 8⟩, last_preset := some "Demo",
            first_photo := some ⟨500, 500, true⟩, second_photo := some ⟨100, 100, true⟩ } := by
  refine ⟨by decide, ?_⟩
  exact (C7_reset_retains_only_spacing _).2.2 "label" 40 20 (by decide)

/-- C9 counterexample: when the reference image fails to decode the job is
aborted with no output, but the session's job-scoped fields are NOT reset:
the pending main image is still stored in the session afterwards. -/
theorem C9_counterexample :
    (process_name
        { first_photo := some ⟨500, 500, true⟩, second_photo := some ⟨100, 100, false⟩,
          last_preset := some "p" } "hello" 40 20).output = none
      ∧ (process_name
        { first_photo := some ⟨500, 500, true⟩, second_photo := some ⟨100, 100, false⟩,
          last_preset := some "p" } "hello" 40 20).session.first_photo
        = some ⟨500, 500, true⟩ := by
  decide

/-- C9 (amended): when decoding either supplied media fails, the job is
aborted with no partial output, the user is informed by the error reply, and
the conversation state returns to idle — but the session is left untouched;
its job-scoped fields are not reset. -/
theorem C9_decode_failure_aborts (s : UserSession) (text : String) (tw th : Nat)
    (m1 m2 : Media) (h1 : s.first_photo = some m1) (h2 : s.second_photo = some m2)
    (hc : text ≠ CANCEL_TEXT)
    (hfail : m1.decodesOk = false ∨ m2.decodesOk = false) :
    process_name s text tw th
      = { session := s, state := ConvState.conversation_end, output := none,
          error_reply := true } := by
  have hbc : (text == CANCEL_TEXT) = false := by
    simp [hc]
  have hd : (m1.decodesOk && m2.decodesOk) = false := by
    rcases hfail with h | h <;> simp [h]
  simp [process_name, hbc, h1, h2, hd]

/-- C9 witness: a concrete failing decode aborts without touching the
session. -/
theorem C9_decode_failure_aborts_witness :
    process_name
        { first_photo := some ⟨500, 500, false⟩, second_photo := some ⟨100, 100, true⟩,
          last_preset := some "p" } "hello" 40 20
      = { session :=
            { first_photo := some ⟨500, 500, false⟩, second_photo := some ⟨100, 100, true⟩,
              last_preset := some "p" },
          state := ConvState.conversation_end, output := none, error_reply := true } := by
  exact C9_decode_failure_aborts _ "hello" 40 20 ⟨500, 500, false⟩ ⟨100, 100, true⟩
    rfl rfl (by decide) (Or.inl rfl)

/-! ## Helper lemmas for the preset repository -/

theorem alookup_map {α β : Type} (d : List (String × α)) (f : α → β) (k : String) :
    alookup (d.map (fun p => (p.1, f p.2))) k = (alookup d k).map f := by
  induction d with
  | nil => simp [alookup]
  | cons hd tl ih =>
    obtain ⟨k', v⟩ := hd
    by_cases h : (k' == k) = true <;> simp [alookup, h, ih]

theorem alookup_aset_self {α : Type} (d : List (String × α)) (k : String) (v : α) :
    alookup (aset d k v) k = some v := by
  induction d with
  | nil => simp [aset, alookup]
  | cons hd tl ih =>
    obtain ⟨k', v'⟩ := hd
    by_cases h : (k' == k) = true <;> simp [aset, alookup, h, ih]

theorem any_of_alookup {α : Type} (d : List (String × α)) (k : String) (v : α)
    (f : α → Bool) (hfind : alookup d k = some v) (hf : f v = true) :
    d.any (fun p => f p.2) = true := by
  induction d with
  | nil => simp [alookup] at hfind
  | cons hd tl ih =>
    obtain ⟨k', v'⟩ := hd
    by_cases h : (k' == k) = true
    · simp [alookup, h] at hfind
      subst hfind
      simp [hf]
    · simp [alookup, h] at hfind
      simp [ih hfind]

theorem alookup_append {α : Type} (d t : List (String × α)) (k : String) :
    alookup (d ++ t) k = (alookup d k).or (alookup t k) := by
  induction d with
  | nil => simp [alookup]
  | cons hd tl ih =>
    obtain ⟨k', v⟩ := hd
    by_cases h : (k' == k) = true <;> simp [alookup, h, ih]

theorem alookup_ensure_self (sp : List (String × Int)) (k : String) :
    alookup (ensure_key sp k) k = some ((alookup sp k).getD 0) := by
  unfold ensure_key ahas
  cases h : alookup sp k with
  | some v => simp [h]
  | none => simp [h, alookup_append, alookup]

theorem alookup_ensure_other (sp : List (String × Int)) (k k' : String) (hne : k' ≠ k) :
    alookup (ensure_key sp k') k = alookup sp k := by
  unfold ensure_key ahas
  cases h : alookup sp k' with
  | some v => simp [h]
  | none =>
    have hb : (k' == k) = false := by
      simp [hne]
    simp [h, alookup_append, alookup, hb]

/-- The four stored values after the consumer back-fill. -/
theorem backfill_spacing_values (sp : List (String × Int)) :
    alookup (backfill_spacing sp) "image_x" = some ((alookup sp "image_x").getD 0)
      ∧ alookup (backfill_spacing sp) "image_y" = some ((alookup sp "image_y").getD 0)
      ∧ alookup (backfill_spacing sp) "text_x" = some ((alookup sp "text_x").getD 0)
      ∧ alookup (backfill_spacing sp) "text_y" = some ((alookup sp "text_y").getD 0) := by
  unfold backfill_spacing
  refine ⟨?_, ?_, ?_, ?_⟩
  · rw [alookup_ensure_other _ _ _ (by decide), alookup_ensure_other _ _ _ (by decide),
      alookup_ensure_other _ _ _ (by decide), alookup_ensure_self]
  · rw [alookup_ensure_other _ _ _ (by decide), alookup_ensure_other _ _ _ (by decide),
      alookup_ensure_self, alookup_ensure_other _ _ _ (by decide)]
  · rw [alookup_ensure_other _ _ _ (by decide), alookup_ensure_self,
      alookup_ensure_other _ _ _ (by decide), alookup_ensure_other _ _ _ (by decide)]
  · rw [alookup_ensure_self, alookup_ensure_other _ _ _ (by decide),
      alookup_ensure_other _ _ _ (by decide), alookup_ensure_other _ _ _ (by decide)]

/-- After one migration pass no record still matches the migration test. -/
theorem migrate_record_not_old (p : PresetData) :
    record_is_old_format (migrate_record p) = false := by
  unfold migrate_record
  cases h : record_is_old_format p with
  | true => simp [h]; decide
  | false => simp [h]

/-- Migration of a single record is idempotent. -/
theorem migrate_record_idem (p : PresetData) :
    migrate_record (migrate_record p) = migrate_record p := by
  have h : migrate_record (migrate_record p)
      = if record_is_old_format (migrate_record p)
        then { spacing := some default_spacing_dict }
        else migrate_record p := rfl
  rw [h, migrate_record_not_old p]
  simp

/-- Loading an already-loaded document performs no write-back and returns it
unchanged. -/
theorem load_presets_idem (disk : PresetsDoc) :
    load_presets (load_presets disk).1 = ((load_presets disk).1, 0) := by
  unfold load_presets
  simp only [List.any_map, List.map_map, Prod.mk.injEq]
  constructor
  · apply List.map_congr_left
    intro p _
    simp [Function.comp, migrate_record_idem]
  · simp [List.any_eq_true, Function.comp, migrate_record_not_old]

theorem load_presets_fst (disk : PresetsDoc) :
    (load_presets disk).1 = disk.map (fun p => (p.1, migrate_record p.2)) := rfl

theorem load_presets_snd (disk : PresetsDoc) :
    (load_presets disk).2
      = if disk.any (fun p => record_is_old_format p.2) then 1 else 0 := rfl

/-! ## Claim theorems for the preset repository -/

/-- C4: saving a preset under a non-empty name with a four-key spacing record
and then loading all presets — the load reading exactly the stored document,
so also from a fresh repository instance — yields under that name a record
whose spacing equals the saved offsets on each of the four fields. -/
theorem C4_save_load_roundtrip (disk : PresetsDoc) (name : String) (sp : SpacingOffsets)
    (disk2 : PresetsDoc) (hname : name ≠ "")
    (hsave : save_preset disk name sp = some disk2) :
    alookup (load_all disk2) name = some { spacing := some (spacing_to_dict sp) }
      ∧ alookup (spacing_to_dict sp) "image_x" = some sp.image_x
      ∧ alookup (spacing_to_dict sp) "image_y" = some sp.image_y
      ∧ alookup (spacing_to_dict sp) "text_x" = some sp.text_x
      ∧ alookup (spacing_to_dict sp) "text_y" = some sp.text_y := by
  have hdisk2 : disk2
      = aset (load_presets disk).1 name { spacing := some (spacing_to_dict sp) } := by
    unfold save_preset at hsave
    rw [if_neg hname] at hsave
    exact (Option.some.inj hsave).symm
  subst hdisk2
  refine ⟨?_, by simp [alookup, spacing_to_dict], by simp [alookup, spacing_to_dict],
    by simp [alookup, spacing_to_dict], by simp [alookup, spacing_to_dict]⟩
  unfold load_all
  rw [load_presets_fst, alookup_map, alookup_map, alookup_aset_self]
  rfl

/-- C4 witness (Scenario D): saving preset "Demo" with offsets
`{image_x: 20, image_y: -10, text_x: 0, text_y: 5}` into an empty repository
produces the document whose loadAll returns exactly that record under "Demo". -/
theorem C4_save_load_roundtrip_witness :
    alookup (load_all [("Demo", { spacing := some (spacing_to_dict ⟨20, -10, 0, 5⟩) })]) "Demo"
        = some { spacing := some (spacing_to_dict ⟨20, -10, 0, 5⟩) }
      ∧ alookup (spacing_to_dict ⟨20, -10, 0, 5⟩) "image_x" = some 20 := by
  have h := C4_save_load_roundtrip [] "Demo" ⟨20, -10, 0, 5⟩
      [("Demo", { spacing := some (spacing_to_dict ⟨20, -10, 0, 5⟩) })]
      (by decide) rfl
  exact ⟨h.1, h.2.1⟩

/-- C5: a stored document containing a legacy-schema record (directional keys
present, four-key schema absent) loads with that record's spacing rewritten to
all-zero offsets and with the whole document re-persisted exactly once, and a
second load with no intervening save or delete performs no further rewrite and
returns an identical preset set. -/
theorem C5_legacy_migration (disk : PresetsDoc) (n : String) (p : PresetData)
    (hfind : alookup disk n = some p) (hleg : record_is_legacy p = true) :
    (load_presets disk).2 = 1
      ∧ alookup (load_presets disk).1 n = some { spacing := some default_spacing_dict }
      ∧ load_presets (load_presets disk).1 = ((load_presets disk).1, 0) := by
  have hold : record_is_old_format p = true := by
    obtain ⟨psp⟩ := p
    cases psp with
    | none => simp [record_is_legacy] at hleg
    | some sp =>
      simp only [record_is_legacy, Bool.and_eq_true, Bool.not_eq_true',
        Bool.or_eq_false_iff] at hleg
      simp only [record_is_old_format, Bool.and_eq_true, Bool.not_eq_true']
      tauto
  have hany : disk.any (fun q => record_is_old_format q.2) = true :=
    any_of_alookup disk n p _ hfind hold
  refine ⟨?_, ?_, load_presets_idem disk⟩
  · rw [load_presets_snd, hany]
    rfl
  · rw [load_presets_fst, alookup_map, hfind]
    simp [migrate_record, hold]

/-- C5 witness: a concrete one-record legacy document is rewritten to the
default spacing with exactly one write-back. -/
theorem C5_legacy_migration_witness :
    (load_presets
        [("old", { spacing := some [("top", 5), ("right", 3), ("bottom", 2), ("left", 1)] })]).2 = 1
      ∧ alookup (load_presets
        [("old", { spacing := some [("top", 5), ("right", 3), ("bottom", 2), ("left", 1)] })]).1 "old"
        = some { spacing := some default_spacing_dict } := by
  have h := C5_legacy_migration
      [("old", { spacing := some [("top", 5), ("right", 3), ("bottom", 2), ("left", 1)] })]
      "old" { spacing := some [("top", 5), ("right", 3), ("bottom", 2), ("left", 1)] }
      (by decide) (by decide)
  exact ⟨h.1, h.2.1⟩

/-- C6: every record returned by loadAll whose stored spacing is present
contains all four keys image_x, image_y, text_x, text_y, each holding the
stored (post-migration) value when that key is present in the stored document
and back-filled as 0 when it is absent — no consumer of loadAll is handed a
partial record. -/
theorem C6_load_all_total_records (disk : PresetsDoc) (n : String) (p : PresetData)
    (sp : List (String × Int)) (hp : alookup (load_all disk) n = some p)
    (hsp : p.spacing = some sp) :
    (ahas sp "image_x" = true ∧ ahas sp "image_y" = true
        ∧ ahas sp "text_x" = true ∧ ahas sp "text_y" = true)
      ∧ ∃ sp0, (∃ p0, alookup (load_presets disk).1 n = some p0 ∧ p0.spacing = some sp0)
          ∧ alookup sp "image_x" = some ((alookup sp0 "image_x").getD 0)
          ∧ alookup sp "image_y" = some ((alookup sp0 "image_y").getD 0)
          ∧ alookup sp "text_x" = some ((alookup sp0 "text_x").getD 0)
          ∧ alookup sp "text_y" = some ((alookup sp0 "text_y").getD 0) := by
  unfold load_all at hp
  rw [alookup_map] at hp
  obtain ⟨p0, hp0, hbp⟩ := Option.map_eq_some'.mp hp
  subst hbp
  unfold backfill_record at hsp
  simp only at hsp
  obtain ⟨sp0, hsp0, hbs⟩ := Option.map_eq_some'.mp hsp
  subst hbs
  obtain ⟨h1, h2, h3, h4⟩ := backfill_spacing_values sp0
  refine ⟨⟨?_, ?_, ?_, ?_⟩, sp0, ⟨p0, hp0, hsp0⟩, h1, h2, h3, h4⟩
  · unfold ahas
    rw [h1]
    rfl
  · unfold ahas
    rw [h2]
    rfl
  · unfold ahas
    rw [h3]
    rfl
  · unfold ahas
    rw [h4]
    rfl

/-- C6 witness: a stored record holding only `image_y` comes back from
loadAll with all four keys, the missing three back-filled as 0. -/
theorem C6_load_all_total_records_witness :
    ahas [("image_y", 7), ("image_x", 0), ("text_x", 0), ("text_y", 0)] "image_x" = true
      ∧ ahas [("image_y", 7), ("image_x", 0), ("text_x", 0), ("text_y", 0)] "image_y" = true
      ∧ ahas [("image_y", 7), ("image_x", 0), ("text_x", 0), ("text_y", 0)] "text_x" = true
      ∧ ahas [("image_y", 7), ("image_x", 0), ("text_x", 0), ("text_y", 0)] "text_y" = true :=
  (C6_load_all_total_records [("p", { spacing := some [("image_y", 7)] })] "p"
      { spacing := some [("image_y", 7), ("image_x", 0), ("text_x", 0), ("text_y", 0)] }
      [("image_y", 7), ("image_x", 0), ("text_x", 0), ("text_y", 0)]
      (by decide) rfl).1
